import Mathlib

/-!
# goat: a shallow embedding of `goat.go`

`goat` reads a text template and optional JSON data, renders the template,
optionally prepends a generated-file header, optionally runs gofmt on the
result and writes it to a file or to standard output.

The program is one function, `main`, plus the helper `makeSlice` and the
string variable `header`.  The Go standard library calls made by `main`
(`os.ReadFile`, `io.ReadAll`, `json.Unmarshal`, `template.Parse`,
`template.Execute`, `format.Source`, `os.WriteFile`) are fields of an
environment `Env`; `fmt.Sprintf`, `fmt.Fprintln`, `fmt.Println` and `fmt.Print`
are modelled concretely for string operands.  The process state is a `World`:
the bytes on standard output and standard error, the files written, and the
log of the operations performed, in order.
-/

namespace Goat

/-- A Go `string` or `[]byte`, as the sequence of its characters.  `main` only
copies and concatenates texts, and `fmt.Sprintf` looks only at the ASCII
characters of a directive, so the encoding into bytes plays no role. -/
abbrev GoString := List Char

/-! ## The command-line flags (goat.go, lines 15-22) -/

/-- The values of the six flags after `flag.Parse()`.  The Go variable `in` is
the field `inp` (`in` is reserved in Lean). -/
structure Flags where
  /-- Path to the input template file (`-i`); empty: read standard input. -/
  inp : GoString := []
  /-- Path to the output file (`-o`); empty: write to standard output. -/
  out : GoString := []
  /-- Do not add a header (`-nh`). -/
  nh : Bool := false
  /-- Do not run gofmt (`-nf`). -/
  nf : Bool := false
  /-- The inline data string (`-d`). -/
  data : GoString := []
  /-- The data file path (`-df`). -/
  dataFile : GoString := []
deriving DecidableEq, Repr

/-! ## makeSlice and the helper registry (lines 66, 114-116) -/

/-- The source's `func makeSlice(a ...interface{}) []interface{} { return a }`.
`Any` is the type of dynamic values (`interface{}`). -/
def makeSlice {Any : Type} (a : List Any) : List Any :=
  a

/-- The source's `funcs := map[string]interface{}{"slice": makeSlice}` (line 66),
a map literal given as the list of its key/value pairs. -/
def funcs (Any : Type) : List (GoString × (List Any → List Any)) :=
  [("slice".toList, makeSlice)]

/-- The names under which helpers are registered: the keys of `funcs`. -/
def funcNames (Any : Type) : List GoString :=
  (funcs Any).map Prod.fst

/-! ## The header (lines 118-124) -/

/-- The source's `var header`, a raw string literal: five comment lines and one
empty line, with the verb `%v` in the third line. -/
def header : GoString :=
  ("// ***** DO NOT EDIT THIS FILE MANUALLY. *****\n" ++
   "//\n" ++
   "// This file was auto-generated %vusing goat.\n" ++
   "//\n" ++
   "// goat: https://www.github.com/fluhus/goat\n" ++
   "\n").toList

/-! ## fmt -/

/-- The text `%!(EXTRA string=a, string=b)` that `fmt.Sprintf` appends for
operands no directive consumed; nothing when there is none. -/
def fmtExtra : List GoString → GoString
  | [] => []
  | a :: as =>
    "%!(EXTRA ".toList ++
      ", ".toList.intercalate ((a :: as).map fun s => "string=".toList ++ s) ++ ")".toList

/-- The loop of `fmt.Sprintf` for string operands and the directives `%v`,
`%s` and `%%`: literal text is copied, `%v` and `%s` write the next operand
verbatim, or `%!v(MISSING)` when none is left, `%%` writes a percent sign, a
lone `%` at the end writes `%!(NOVERB)`, and a verb `c` that strings do not
support writes `%!c(string=operand)`.  Flags, width, precision, operand indexes
and the string verbs `q`, `x` and `X` are left out: `header`, the only format
`main` uses, has the single directive `%v`. -/
def doPrintf : GoString → List GoString → GoString
  | [], args => fmtExtra args
  | '%' :: [], _ => "%!(NOVERB)".toList
  | '%' :: '%' :: rest, args => '%' :: doPrintf rest args
  | '%' :: c :: rest, [] => "%!".toList ++ c :: "(MISSING)".toList ++ doPrintf rest []
  | '%' :: c :: rest, a :: args =>
    if c = 'v' ∨ c = 's' then a ++ doPrintf rest args
    else "%!".toList ++ c :: "(string=".toList ++ a ++ ")".toList ++ doPrintf rest args
  | c :: rest, args => c :: doPrintf rest args

/-- The call `fmt.Sprintf(format, a...)` with string operands. -/
def Sprintf (format : GoString) (a : List GoString) : GoString :=
  doPrintf format a

/-- The text written by `fmt.Println` and `fmt.Fprintln` for string and error
operands: the operands separated by one space, then a newline. -/
def Sprintln (a : List GoString) : GoString :=
  " ".toList.intercalate a ++ "\n".toList

/-! ## The process state -/

/-- One operation performed by `main`, with what it was given and whether it
succeeded. -/
inductive Event where
  /-- The test of line 28; `ok` is false when both `-d` and `-df` are set. -/
  | checkFlags (ok : Bool)
  /-- A call of `json.Unmarshal` (lines 34 and 45) on the given bytes. -/
  | unmarshal (src : GoString) (ok : Bool)
  /-- The call `os.ReadFile(*dataFile)` (line 40). -/
  | readDataFile (path : GoString) (ok : Bool)
  /-- The call `io.ReadAll(os.Stdin)` (line 56). -/
  | readStdin (ok : Bool)
  /-- The call `os.ReadFile(*in)` (line 58). -/
  | readInput (path : GoString) (ok : Bool)
  /-- The call `template.New("").Funcs(funcs).Parse(string(input))` (line 67),
  with the names registered in `funcs`. -/
  | parse (names : List GoString) (text : GoString) (ok : Bool)
  /-- The call `t.Execute(buf, d)` (line 75), with the bytes left in `buf`. -/
  | execute (rendered : GoString) (ok : Bool)
  /-- The header attachment of lines 84-89. -/
  | attachHeader
  /-- The call `format.Source(src)` (line 94). -/
  | gofmt (src : GoString) (ok : Bool)
  /-- The call `fmt.Print(string(src))` (line 103). -/
  | printSrc (src : GoString)
  /-- The call `os.WriteFile(*out, src, 0644)` (line 105). -/
  | writeFile (path : GoString) (src : GoString) (ok : Bool)
deriving DecidableEq, Repr

/-- The state of the process: standard output, standard error, the files
written by a successful `os.WriteFile` (path and content), and the log of
operations, oldest first. -/
structure World where
  stdout : GoString := []
  stderr : GoString := []
  files : List (GoString × GoString) := []
  trace : List Event := []
deriving DecidableEq, Repr

/-- Append an operation to the log. -/
def World.log (w : World) (e : Event) : World :=
  { w with trace := w.trace ++ [e] }

/-- The call `fmt.Fprintln(os.Stderr, a...)`. -/
def World.errln (w : World) (a : List GoString) : World :=
  { w with stderr := w.stderr ++ Sprintln a }

/-- The call `fmt.Println(a...)`, which writes to standard output. -/
def World.println (w : World) (a : List GoString) : World :=
  { w with stdout := w.stdout ++ Sprintln a }

/-- The call `fmt.Print(s)` with one string operand: the string, verbatim, on
standard output. -/
def World.print (w : World) (s : GoString) : World :=
  { w with stdout := w.stdout ++ s }

/-- A successful `os.WriteFile(path, src, 0644)`: the file holds `src`. -/
def World.write (w : World) (path src : GoString) : World :=
  { w with files := w.files ++ [(path, src)] }

/-! ## The standard library calls -/

/-- The results of the standard library calls `main` makes.  An error is the
text of its `Error()`.  `Any` is the type of decoded JSON values and `Tmpl` the
type of parsed templates. -/
structure Env (Any Tmpl : Type) where
  /-- The initial value of `var d any`: nil. -/
  nil : Any
  /-- The call `json.Unmarshal(bytes, &d)`: the value stored in `d`, or an error. -/
  unmarshal : GoString → Except GoString Any
  /-- The call `os.ReadFile(path)`. -/
  readFile : GoString → Except GoString GoString
  /-- The call `io.ReadAll(os.Stdin)`. -/
  stdin : Except GoString GoString
  /-- The call `template.New("").Funcs(funcs).Parse(text)`. -/
  parse : List (GoString × (List Any → List Any)) → GoString → Except GoString Tmpl
  /-- The call `t.Execute(buf, d)`: the bytes written to `buf` and the error, if
  any (a failing execution may have written a part of its output). -/
  execute : Tmpl → Any → GoString × Option GoString
  /-- The call `format.Source(src)`. -/
  formatSource : GoString → Except GoString GoString
  /-- The call `os.WriteFile(path, src, 0644)`: the error, if any. -/
  writeFile : GoString → GoString → Option GoString

/-- The end of the process: its exit code and the state it leaves. -/
structure Outcome where
  code : Nat
  world : World
deriving DecidableEq, Repr

/-! ## main (lines 24-112) -/

/-- The body of the block `if !*nh` (lines 84-89): `from` is empty when the
template comes from standard input and `from '<path>' ` otherwise, the header
is `fmt.Sprintf(header, from)`, and the result is the header followed by `src`. -/
def attachHeader (inp : GoString) (src : GoString) : GoString :=
  let frm := if inp ≠ [] then "from '".toList ++ inp ++ "' ".toList else []
  let header := Sprintf header [frm]
  header ++ src

/-- The call `os.Exit(code)` in the state `w`: the process ends there, with
that exit code. -/
def osExit {α : Type} (code : Nat) (w : World) : Except Outcome α :=
  .error ⟨code, w⟩

/-- The source's `main` after `flag.Parse()`, from the empty state: the exit
code and the final state.  The body runs in `Except Outcome`, where an error is
the end of the process at a call of `os.Exit`; when the body returns, the exit
code is 0. -/
def main {Any Tmpl : Type} (env : Env Any Tmpl) (fl : Flags) : Outcome :=
  let body : Except Outcome World := do
    let w : World := {}
    -- Parse template data.
    if fl.data ≠ [] ∧ fl.dataFile ≠ [] then
      osExit 2 ((w.log (.checkFlags false)).errln ["Only one of -d and -df can be used.".toList])
    let w := w.log (.checkFlags true)
    let d := env.nil
    let (d, w) ←
      if fl.data ≠ [] then
        match env.unmarshal fl.data with
        | .error err =>
          osExit 2 ((w.log (.unmarshal fl.data false)).errln
            ["Failed to parse data (-d param):".toList, err])
        | .ok v => pure (v, w.log (.unmarshal fl.data true))
      else pure (d, w)
    let (d, w) ←
      if fl.dataFile ≠ [] then
        match env.readFile fl.dataFile with
        | .error err =>
          osExit 2 ((w.log (.readDataFile fl.dataFile false)).errln
            ["Could not read data file:".toList, err])
        | .ok data =>
          let w := w.log (.readDataFile fl.dataFile true)
          match env.unmarshal data with
          | .error err =>
            osExit 2 ((w.log (.unmarshal data false)).errln
              ["Failed to parse data file (-df param):".toList, err])
          | .ok v => pure (v, w.log (.unmarshal data true))
      else pure (d, w)
    -- Read template.
    let (r, w) :=
      if fl.inp = [] then
        let w := w.errln ["Reading from stdin...".toList]
        (env.stdin, w.log (.readStdin env.stdin.toBool))
      else
        (env.readFile fl.inp, w.log (.readInput fl.inp (env.readFile fl.inp).toBool))
    let input ←
      match r with
      | .error err => osExit 2 (w.errln ["Failed to read input:".toList, err])
      | .ok input => pure input
    -- Parse template.
    let t ←
      match env.parse (funcs Any) input with
      | .error err =>
        osExit 2 ((w.log (.parse (funcNames Any) input false)).errln
          ["Failed to parse template:".toList, err])
      | .ok t => pure t
    let w := w.log (.parse (funcNames Any) input true)
    -- Execute template.
    let (buf, err) := env.execute t d
    let w := w.log (.execute buf err.isNone)
    if let some err := err then
      osExit 2 (w.println ["Failed to execute template:".toList, err])
    let src := buf
    -- Attach header.
    let (src, w) :=
      if !fl.nh then (attachHeader fl.inp src, w.log .attachHeader)
      else (src, w)
    -- Run gofmt.
    let (src, w) ←
      if !fl.nf then
        match env.formatSource src with
        | .error err =>
          osExit 2 ((w.log (.gofmt src false)).println
            ["Failed to gofmt the resulting source:".toList, err])
        | .ok out => pure (out, w.log (.gofmt src true))
      else pure (src, w)
    -- Write output.
    if fl.out = [] then
      return (w.log (.printSrc src)).print src
    else
      match env.writeFile fl.out src with
      | some err =>
        osExit 2 ((w.log (.writeFile fl.out src false)).println
          ["Failed to write output:".toList, err])
      | none =>
        return ((w.log (.writeFile fl.out src true)).write fl.out src).errln
          ["Wrote to:".toList, fl.out]
  match body with
  | .error o => o
  | .ok w => ⟨0, w⟩

/-! ## Stages -/

/-- The stage of the run an operation belongs to: 0 configuration check, 1 data
load, 2 template-source read, 3 template parse, 4 template render, 5 header
attachment, 6 formatting, 7 output write. -/
def Event.stage : Event → Nat
  | .checkFlags _ => 0
  | .unmarshal _ _ => 1
  | .readDataFile _ _ => 1
  | .readStdin _ => 2
  | .readInput _ _ => 2
  | .parse _ _ _ => 3
  | .execute _ _ => 4
  | .attachHeader => 5
  | .gofmt _ _ => 6
  | .printSrc _ => 7
  | .writeFile _ _ _ => 7

/-- Whether the operation succeeded.  The header attachment cannot fail, and
`main` ignores the result of `fmt.Print`. -/
def Event.ok : Event → Bool
  | .checkFlags ok => ok
  | .unmarshal _ ok => ok
  | .readDataFile _ ok => ok
  | .readStdin ok => ok
  | .readInput _ ok => ok
  | .parse _ _ ok => ok
  | .execute _ ok => ok
  | .attachHeader => true
  | .gofmt _ ok => ok
  | .printSrc _ => true
  | .writeFile _ _ ok => ok

/-! ## The runs of main, path by path

`Runs env fl o` lists the paths through `main`, one constructor for each place
where the process ends, with the state it ends in.  It is proved below to
describe `main` exactly. -/

/-- The template source as lines 54-59 read it: standard input when `-i` is
empty, the file otherwise. -/
def readSource {Any Tmpl : Type} (env : Env Any Tmpl) (fl : Flags) : Except GoString GoString :=
  if fl.inp = [] then env.stdin else env.readFile fl.inp

/-- The note line 55 writes to standard error before reading standard input. -/
def readNote (fl : Flags) : GoString :=
  if fl.inp = [] then Sprintln ["Reading from stdin...".toList] else []

/-- The log entry of the template-source read. -/
def readEvent (fl : Flags) (ok : Bool) : Event :=
  if fl.inp = [] then .readStdin ok else .readInput fl.inp ok

/-- The bytes after the header stage: `attachHeader` unless `-nh` is set. -/
def withHeader (fl : Flags) (r : GoString) : GoString :=
  if fl.nh then r else attachHeader fl.inp r

/-- The log entries of the header stage. -/
def headerEvents (fl : Flags) : List Event :=
  if fl.nh then [] else [.attachHeader]

/-- The result of the formatting stage on `s`: `format.Source` unless `-nf` is
set. -/
def formatted {Any Tmpl : Type} (env : Env Any Tmpl) (fl : Flags) (s : GoString) :
    Except GoString GoString :=
  if fl.nf then .ok s else env.formatSource s

/-- The log entries of a successful formatting stage on `s`. -/
def gofmtEvents (fl : Flags) (s : GoString) : List Event :=
  if fl.nf then [] else [.gofmt s true]

/-- A successful data load: the value `d` bound to the template and the
operations performed. -/
inductive DataLoad {Any Tmpl : Type} (env : Env Any Tmpl) (fl : Flags) : Any → List Event → Prop
  /-- Neither `-d` nor `-df`: `d` stays nil. -/
  | absent : fl.data = [] → fl.dataFile = [] → DataLoad env fl env.nil []
  /-- Only `-d`, and it decodes. -/
  | inline {v : Any} : fl.data ≠ [] → fl.dataFile = [] → env.unmarshal fl.data = .ok v →
      DataLoad env fl v [.unmarshal fl.data true]
  /-- Only `-df`, the file is read and its content decodes. -/
  | file {bytes : GoString} {v : Any} : fl.data = [] → fl.dataFile ≠ [] →
      env.readFile fl.dataFile = .ok bytes → env.unmarshal bytes = .ok v →
      DataLoad env fl v [.readDataFile fl.dataFile true, .unmarshal bytes true]

/-- The data is loaded, the template source is read and parsed: the data `d`,
the template `t` and the log so far. -/
inductive Parsed {Any Tmpl : Type} (env : Env Any Tmpl) (fl : Flags) :
    Any → Tmpl → List Event → Prop
  | mk {d : Any} {evs : List Event} {input : GoString} {t : Tmpl} :
      DataLoad env fl d evs → readSource env fl = .ok input →
      env.parse (funcs Any) input = .ok t →
      Parsed env fl d t
        (.checkFlags true :: evs ++ [readEvent fl true, .parse (funcNames Any) input true])

/-- The paths through `main`. -/
inductive Runs {Any Tmpl : Type} (env : Env Any Tmpl) (fl : Flags) : Outcome → Prop
  /-- Both `-d` and `-df` (lines 28-31). -/
  | conflict : fl.data ≠ [] → fl.dataFile ≠ [] →
      Runs env fl ⟨2, { stderr := Sprintln ["Only one of -d and -df can be used.".toList],
                        trace := [.checkFlags false] }⟩
  /-- The inline data does not decode (lines 34-37). -/
  | badInline {err : GoString} : fl.data ≠ [] → fl.dataFile = [] →
      env.unmarshal fl.data = .error err →
      Runs env fl ⟨2, { stderr := Sprintln ["Failed to parse data (-d param):".toList, err],
                        trace := [.checkFlags true, .unmarshal fl.data false] }⟩
  /-- The data file cannot be read (lines 40-44). -/
  | noDataFile {err : GoString} : fl.data = [] → fl.dataFile ≠ [] →
      env.readFile fl.dataFile = .error err →
      Runs env fl ⟨2, { stderr := Sprintln ["Could not read data file:".toList, err],
                        trace := [.checkFlags true, .readDataFile fl.dataFile false] }⟩
  /-- The data file does not decode (lines 45-48). -/
  | badDataFile {bytes err : GoString} : fl.data = [] → fl.dataFile ≠ [] →
      env.readFile fl.dataFile = .ok bytes → env.unmarshal bytes = .error err →
      Runs env fl ⟨2, { stderr := Sprintln ["Failed to parse data file (-df param):".toList, err],
                        trace := [.checkFlags true, .readDataFile fl.dataFile true,
                                  .unmarshal bytes false] }⟩
  /-- The template source cannot be read (lines 60-63). -/
  | noInput {d : Any} {evs : List Event} {err : GoString} : DataLoad env fl d evs →
      readSource env fl = .error err →
      Runs env fl ⟨2, { stderr := readNote fl ++ Sprintln ["Failed to read input:".toList, err],
                        trace := .checkFlags true :: evs ++ [readEvent fl false] }⟩
  /-- The template does not parse (lines 68-71). -/
  | badTemplate {d : Any} {evs : List Event} {input err : GoString} : DataLoad env fl d evs →
      readSource env fl = .ok input → env.parse (funcs Any) input = .error err →
      Runs env fl ⟨2, { stderr := readNote fl ++ Sprintln ["Failed to parse template:".toList, err],
                        trace := .checkFlags true :: evs ++
                          [readEvent fl true, .parse (funcNames Any) input false] }⟩
  /-- The execution of the template fails (lines 76-79). -/
  | execFails {d : Any} {t : Tmpl} {evs : List Event} {buf err : GoString} : Parsed env fl d t evs →
      env.execute t d = (buf, some err) →
      Runs env fl ⟨2, { stdout := Sprintln ["Failed to execute template:".toList, err],
                        stderr := readNote fl,
                        trace := evs ++ [.execute buf false] }⟩
  /-- The call of gofmt fails (lines 95-98). -/
  | gofmtFails {d : Any} {t : Tmpl} {evs : List Event} {r err : GoString} : Parsed env fl d t evs →
      env.execute t d = (r, none) → fl.nf = false →
      env.formatSource (withHeader fl r) = .error err →
      Runs env fl ⟨2, { stdout := Sprintln ["Failed to gofmt the resulting source:".toList, err],
                        stderr := readNote fl,
                        trace := evs ++ [.execute r true] ++ headerEvents fl ++
                          [.gofmt (withHeader fl r) false] }⟩
  /-- The output file cannot be written (lines 106-109). -/
  | writeFails {d : Any} {t : Tmpl} {evs : List Event} {r b err : GoString} :
      Parsed env fl d t evs → env.execute t d = (r, none) →
      formatted env fl (withHeader fl r) = .ok b → fl.out ≠ [] →
      env.writeFile fl.out b = some err →
      Runs env fl ⟨2, { stdout := Sprintln ["Failed to write output:".toList, err],
                        stderr := readNote fl,
                        trace := evs ++ [.execute r true] ++ headerEvents fl ++
                          gofmtEvents fl (withHeader fl r) ++ [.writeFile fl.out b false] }⟩
  /-- The result goes to standard output (line 103). -/
  | printed {d : Any} {t : Tmpl} {evs : List Event} {r b : GoString} :
      Parsed env fl d t evs → env.execute t d = (r, none) →
      formatted env fl (withHeader fl r) = .ok b → fl.out = [] →
      Runs env fl ⟨0, { stdout := b,
                        stderr := readNote fl,
                        trace := evs ++ [.execute r true] ++ headerEvents fl ++
                          gofmtEvents fl (withHeader fl r) ++ [.printSrc b] }⟩
  /-- The result goes to the output file (lines 105-110). -/
  | written {d : Any} {t : Tmpl} {evs : List Event} {r b : GoString} :
      Parsed env fl d t evs → env.execute t d = (r, none) →
      formatted env fl (withHeader fl r) = .ok b → fl.out ≠ [] →
      env.writeFile fl.out b = none →
      Runs env fl ⟨0, { stderr := readNote fl ++ Sprintln ["Wrote to:".toList, fl.out],
                        files := [(fl.out, b)],
                        trace := evs ++ [.execute r true] ++ headerEvents fl ++
                          gofmtEvents fl (withHeader fl r) ++ [.writeFile fl.out b true] }⟩

/-! ## Sample environments -/

/-- A sample environment.  A value is an optional text (nil is `none`) and a
template is its source text.  The only JSON text that decodes is `"world"`; the
files are `foo.tmpl` (a Go file), `field.tmpl` (a template that reads a field)
and `data.json`; standard input holds the template `Hello {{.}}`, which
renders as `Hello ` and the value; the template of `field.tmpl` fails to execute;
any other template renders as its own text; gofmt accepts what starts with a
comment or with `package`; writing fails under `/proc/`. -/
def sampleEnv : Env (Option GoString) GoString where
  nil := none
  unmarshal := fun s =>
    if s = "\"world\"".toList then .ok (some "world".toList)
    else .error "invalid character 'b' looking for beginning of object key string".toList
  readFile := fun p =>
    if p = "foo.tmpl".toList then .ok "package x\n".toList
    else if p = "field.tmpl".toList then .ok "\x7b\x7b.x\x7d\x7d".toList
    else if p = "data.json".toList then .ok "\"world\"".toList
    else .error ("open ".toList ++ p ++ ": no such file or directory".toList)
  stdin := .ok "Hello \x7b\x7b.\x7d\x7d".toList
  parse := fun _ s => .ok s
  execute := fun t d =>
    if t = "Hello \x7b\x7b.\x7d\x7d".toList then ("Hello ".toList ++ d.getD "<no value>".toList, none)
    else if t = "\x7b\x7b.x\x7d\x7d".toList then
      ([], some "template: :1:2: executing \"\" at <.x>: nil data; no entry for key \"x\"".toList)
    else (t, none)
  formatSource := fun s =>
    if "//".toList <+: s ∨ "package".toList <+: s then .ok s
    else .error "1:1: expected 'package', found Hello".toList
  writeFile := fun p _ =>
    if "/proc/".toList <+: p then some ("open ".toList ++ p ++ ": permission denied".toList)
    else none

/-! # Theorems -/

variable {Any Tmpl : Type}

/-! ## The exit monad -/

@[simp] theorem pure_eq {α : Type} (a : α) : (pure a : Except Outcome α) = Except.ok a := rfl
@[simp] theorem bind_ok {α β : Type} (a : α) (f : α → Except Outcome β) :
    (Except.ok a >>= f) = f a := rfl
@[simp] theorem bind_error {α β : Type} (o : Outcome) (f : α → Except Outcome β) :
    (Except.error o >>= f) = Except.error o := rfl

theorem readSource_stdin {env : Env Any Tmpl} {fl : Flags} {x : Except GoString GoString}
   (h : readSource env fl = x) (hi : fl.inp = []) : env.stdin = x := by
  simpa [readSource, hi] using h

theorem readSource_file {env : Env Any Tmpl} {fl : Flags} {x : Except GoString GoString}
   (h : readSource env fl = x) (hi : fl.inp ≠ []) : env.readFile fl.inp = x := by
  simpa [readSource, hi] using h


/-! ## main follows the paths of Runs -/

theorem main_conflict {env : Env Any Tmpl} {fl : Flags} (h1 : fl.data ≠ []) (h2 : fl.dataFile ≠ []) :
    main env fl = ⟨2, { stderr := Sprintln ["Only one of -d and -df can be used.".toList],
                        trace := [.checkFlags false] }⟩ := by
  simp [main, osExit, h1, h2, World.log, World.errln]

theorem main_badInline {env : Env Any Tmpl} {fl : Flags} {err : GoString} (h1 : fl.data ≠ [])
    (h2 : fl.dataFile = []) (h3 : env.unmarshal fl.data = .error err) :
    main env fl = ⟨2, { stderr := Sprintln ["Failed to parse data (-d param):".toList, err],
                        trace := [.checkFlags true, .unmarshal fl.data false] }⟩ := by
  simp [main, osExit, h1, h2, h3, World.log, World.errln]

theorem main_noDataFile {env : Env Any Tmpl} {fl : Flags} {err : GoString} (h1 : fl.data = [])
    (h2 : fl.dataFile ≠ []) (h3 : env.readFile fl.dataFile = .error err) :
    main env fl = ⟨2, { stderr := Sprintln ["Could not read data file:".toList, err],
                        trace := [.checkFlags true, .readDataFile fl.dataFile false] }⟩ := by
  simp [main, osExit, h1, h2, h3, World.log, World.errln]

theorem main_badDataFile {env : Env Any Tmpl} {fl : Flags} {bytes err : GoString}
    (h1 : fl.data = []) (h2 : fl.dataFile ≠ []) (h3 : env.readFile fl.dataFile = .ok bytes)
    (h4 : env.unmarshal bytes = .error err) :
    main env fl = ⟨2, { stderr := Sprintln ["Failed to parse data file (-df param):".toList, err],
                        trace := [.checkFlags true, .readDataFile fl.dataFile true,
                                  .unmarshal bytes false] }⟩ := by
  simp [main, osExit, h1, h2, h3, h4, World.log, World.errln]

set_option maxHeartbeats 1000000 in
theorem main_noInput {env : Env Any Tmpl} {fl : Flags} {d : Any} {evs : List Event}
    {err : GoString} (hd : DataLoad env fl d evs) (hr : readSource env fl = .error err) :
    main env fl = ⟨2, { stderr := readNote fl ++ Sprintln ["Failed to read input:".toList, err],
                        trace := .checkFlags true :: evs ++ [readEvent fl false] }⟩ := by
  by_cases hi : fl.inp = []
  · have hr' := readSource_stdin hr hi
    cases hd <;>
    simp [*, main, osExit, World.log, World.errln, World.println, World.print, World.write, readNote,
      readEvent, Except.toBool, withHeader, headerEvents, gofmtEvents]
  · have hr' := readSource_file hr hi
    cases hd <;>
    simp [*, main, osExit, World.log, World.errln, World.println, World.print, World.write, readNote,
      readEvent, Except.toBool, withHeader, headerEvents, gofmtEvents]

set_option maxHeartbeats 1000000 in
theorem main_badTemplate {env : Env Any Tmpl} {fl : Flags} {d : Any} {evs : List Event}
    {input err : GoString} (hd : DataLoad env fl d evs) (hr : readSource env fl = .ok input)
    (hp : env.parse (funcs Any) input = .error err) :
    main env fl = ⟨2, { stderr := readNote fl ++ Sprintln ["Failed to parse template:".toList, err],
                        trace := .checkFlags true :: evs ++
                          [readEvent fl true, .parse (funcNames Any) input false] }⟩ := by
  by_cases hi : fl.inp = []
  · have hr' := readSource_stdin hr hi
    cases hd <;>
    simp [*, main, osExit, World.log, World.errln, World.println, World.print, World.write, readNote,
      readEvent, Except.toBool, withHeader, headerEvents, gofmtEvents]
  · have hr' := readSource_file hr hi
    cases hd <;>
    simp [*, main, osExit, World.log, World.errln, World.println, World.print, World.write, readNote,
      readEvent, Except.toBool, withHeader, headerEvents, gofmtEvents]

set_option maxHeartbeats 1000000 in
theorem main_execFails {env : Env Any Tmpl} {fl : Flags} {d : Any} {t : Tmpl} {evs : List Event}
    {buf err : GoString} (hp : Parsed env fl d t evs) (hx : env.execute t d = (buf, some err)) :
    main env fl = ⟨2, { stdout := Sprintln ["Failed to execute template:".toList, err],
                        stderr := readNote fl,
                        trace := evs ++ [.execute buf false] }⟩ := by
  obtain ⟨hd, hr, hp⟩ := hp
  by_cases hi : fl.inp = []
  · have hr' := readSource_stdin hr hi
    cases hd <;>
    simp [*, main, osExit, World.log, World.errln, World.println, World.print, World.write, readNote,
      readEvent, Except.toBool, withHeader, headerEvents, gofmtEvents]
  · have hr' := readSource_file hr hi
    cases hd <;>
    simp [*, main, osExit, World.log, World.errln, World.println, World.print, World.write, readNote,
      readEvent, Except.toBool, withHeader, headerEvents, gofmtEvents]

set_option maxHeartbeats 1000000 in
theorem main_gofmtFails {env : Env Any Tmpl} {fl : Flags} {d : Any} {t : Tmpl} {evs : List Event}
    {r err : GoString} (hp : Parsed env fl d t evs) (hx : env.execute t d = (r, none))
    (hnf : fl.nf = false) (hf : env.formatSource (withHeader fl r) = .error err) :
    main env fl = ⟨2, { stdout := Sprintln ["Failed to gofmt the resulting source:".toList, err],
                        stderr := readNote fl,
                        trace := evs ++ [.execute r true] ++ headerEvents fl ++
                          [.gofmt (withHeader fl r) false] }⟩ := by
  obtain ⟨hd, hr, hp⟩ := hp
  by_cases hi : fl.inp = []
  · have hr' := readSource_stdin hr hi
    cases hd <;> cases hnh : fl.nh <;>
    simp [withHeader, hnh, hi] at hf <;>
    simp [*, main, osExit, World.log, World.errln, World.println, World.print, World.write, readNote,
      readEvent, Except.toBool, withHeader, headerEvents, gofmtEvents]
  · have hr' := readSource_file hr hi
    cases hd <;> cases hnh : fl.nh <;>
    simp [withHeader, hnh, hi] at hf <;>
    simp [*, main, osExit, World.log, World.errln, World.println, World.print, World.write, readNote,
      readEvent, Except.toBool, withHeader, headerEvents, gofmtEvents]

set_option maxHeartbeats 1000000 in
theorem main_writeFails {env : Env Any Tmpl} {fl : Flags} {d : Any} {t : Tmpl} {evs : List Event}
    {r b err : GoString} (hp : Parsed env fl d t evs) (hx : env.execute t d = (r, none))
    (hf : formatted env fl (withHeader fl r) = .ok b) (ho : fl.out ≠ [])
    (hw : env.writeFile fl.out b = some err) :
    main env fl = ⟨2, { stdout := Sprintln ["Failed to write output:".toList, err],
                        stderr := readNote fl,
                        trace := evs ++ [.execute r true] ++ headerEvents fl ++
                          gofmtEvents fl (withHeader fl r) ++ [.writeFile fl.out b false] }⟩ := by
  obtain ⟨hd, hr, hp⟩ := hp
  by_cases hi : fl.inp = []
  · have hr' := readSource_stdin hr hi
    cases hd <;> cases hnh : fl.nh <;> cases hnf : fl.nf <;>
    simp [withHeader, formatted, hnh, hnf, hi] at hf <;> (try subst hf) <;>
    simp [*, main, osExit, World.log, World.errln, World.println, World.print, World.write, readNote,
      readEvent, Except.toBool, withHeader, headerEvents, gofmtEvents]
  · have hr' := readSource_file hr hi
    cases hd <;> cases hnh : fl.nh <;> cases hnf : fl.nf <;>
    simp [withHeader, formatted, hnh, hnf, hi] at hf <;> (try subst hf) <;>
    simp [*, main, osExit, World.log, World.errln, World.println, World.print, World.write, readNote,
      readEvent, Except.toBool, withHeader, headerEvents, gofmtEvents]

set_option maxHeartbeats 1000000 in
theorem main_printed {env : Env Any Tmpl} {fl : Flags} {d : Any} {t : Tmpl} {evs : List Event}
    {r b : GoString} (hp : Parsed env fl d t evs) (hx : env.execute t d = (r, none))
    (hf : formatted env fl (withHeader fl r) = .ok b) (ho : fl.out = []) :
    main env fl = ⟨0, { stdout := b,
                        stderr := readNote fl,
                        trace := evs ++ [.execute r true] ++ headerEvents fl ++
                          gofmtEvents fl (withHeader fl r) ++ [.printSrc b] }⟩ := by
  obtain ⟨hd, hr, hp⟩ := hp
  by_cases hi : fl.inp = []
  · have hr' := readSource_stdin hr hi
    cases hd <;> cases hnh : fl.nh <;> cases hnf : fl.nf <;>
    simp [withHeader, formatted, hnh, hnf, hi] at hf <;> (try subst hf) <;>
    simp [*, main, osExit, World.log, World.errln, World.println, World.print, World.write, readNote,
      readEvent, Except.toBool, withHeader, headerEvents, gofmtEvents]
  · have hr' := readSource_file hr hi
    cases hd <;> cases hnh : fl.nh <;> cases hnf : fl.nf <;>
    simp [withHeader, formatted, hnh, hnf, hi] at hf <;> (try subst hf) <;>
    simp [*, main, osExit, World.log, World.errln, World.println, World.print, World.write, readNote,
      readEvent, Except.toBool, withHeader, headerEvents, gofmtEvents]

set_option maxHeartbeats 1000000 in
theorem main_written {env : Env Any Tmpl} {fl : Flags} {d : Any} {t : Tmpl} {evs : List Event}
    {r b : GoString} (hp : Parsed env fl d t evs) (hx : env.execute t d = (r, none))
    (hf : formatted env fl (withHeader fl r) = .ok b) (ho : fl.out ≠ [])
    (hw : env.writeFile fl.out b = none) :
    main env fl = ⟨0, { stderr := readNote fl ++ Sprintln ["Wrote to:".toList, fl.out],
                        files := [(fl.out, b)],
                        trace := evs ++ [.execute r true] ++ headerEvents fl ++
                          gofmtEvents fl (withHeader fl r) ++ [.writeFile fl.out b true] }⟩ := by
  obtain ⟨hd, hr, hp⟩ := hp
  by_cases hi : fl.inp = []
  · have hr' := readSource_stdin hr hi
    cases hd <;> cases hnh : fl.nh <;> cases hnf : fl.nf <;>
    simp [withHeader, formatted, hnh, hnf, hi] at hf <;> (try subst hf) <;>
    simp [*, main, osExit, World.log, World.errln, World.println, World.print, World.write, readNote,
      readEvent, Except.toBool, withHeader, headerEvents, gofmtEvents]
  · have hr' := readSource_file hr hi
    cases hd <;> cases hnh : fl.nh <;> cases hnf : fl.nf <;>
    simp [withHeader, formatted, hnh, hnf, hi] at hf <;> (try subst hf) <;>
    simp [*, main, osExit, World.log, World.errln, World.println, World.print, World.write, readNote,
      readEvent, Except.toBool, withHeader, headerEvents, gofmtEvents]

/-- Each path of `Runs` is what `main` computes. -/
theorem runs_sound {env : Env Any Tmpl} {fl : Flags} {o : Outcome} (h : Runs env fl o) :
    main env fl = o := by
  cases h with
  | conflict h1 h2 => exact main_conflict h1 h2
  | badInline h1 h2 h3 => exact main_badInline h1 h2 h3
  | noDataFile h1 h2 h3 => exact main_noDataFile h1 h2 h3
  | badDataFile h1 h2 h3 h4 => exact main_badDataFile h1 h2 h3 h4
  | noInput hd hr => exact main_noInput hd hr
  | badTemplate hd hr hp => exact main_badTemplate hd hr hp
  | execFails hp hx => exact main_execFails hp hx
  | gofmtFails hp hx hnf hf => exact main_gofmtFails hp hx hnf hf
  | writeFails hp hx hf ho hw => exact main_writeFails hp hx hf ho hw
  | printed hp hx hf ho => exact main_printed hp hx hf ho
  | written hp hx hf ho hw => exact main_written hp hx hf ho hw

/-- The data load either fails in one of the three ways of `Runs` or succeeds. -/
theorem dataLoad_or_fails (env : Env Any Tmpl) (fl : Flags) :
    (∃ o, Runs env fl o) ∨ ∃ d evs, DataLoad env fl d evs := by
  by_cases h1 : fl.data = [] <;> by_cases h2 : fl.dataFile = []
  · exact .inr ⟨_, _, .absent h1 h2⟩
  · cases h3 : env.readFile fl.dataFile with
    | error err => exact .inl ⟨_, .noDataFile h1 h2 h3⟩
    | ok bytes =>
      cases h4 : env.unmarshal bytes with
      | error err => exact .inl ⟨_, .badDataFile h1 h2 h3 h4⟩
      | ok v => exact .inr ⟨_, _, .file h1 h2 h3 h4⟩
  · cases h3 : env.unmarshal fl.data with
    | error err => exact .inl ⟨_, .badInline h1 h2 h3⟩
    | ok v => exact .inr ⟨_, _, .inline h1 h2 h3⟩
  · exact .inl ⟨_, .conflict h1 h2⟩

/-- Some path of `Runs` applies to every environment and flags. -/
theorem runs_total (env : Env Any Tmpl) (fl : Flags) : ∃ o, Runs env fl o := by
  rcases dataLoad_or_fails env fl with ⟨o, ho⟩ | ⟨d, evs, hd⟩
  · exact ⟨o, ho⟩
  cases hr : readSource env fl with
  | error err => exact ⟨_, .noInput hd hr⟩
  | ok input =>
  cases hp : env.parse (funcs Any) input with
  | error err => exact ⟨_, .badTemplate hd hr hp⟩
  | ok t =>
  have hP := Parsed.mk hd hr hp
  rcases hx : env.execute t d with ⟨r, _ | err⟩
  swap
  · exact ⟨_, .execFails hP hx⟩
  cases hf : formatted env fl (withHeader fl r) with
  | error err =>
    have hnf : fl.nf = false := by
      cases h : fl.nf
      · rfl
      · simp [formatted, h] at hf
    have hf' : env.formatSource (withHeader fl r) = .error err := by
      simpa [formatted, hnf] using hf
    exact ⟨_, .gofmtFails hP hx hnf hf'⟩
  | ok b =>
  by_cases ho : fl.out = []
  · exact ⟨_, .printed hP hx hf ho⟩
  cases hw : env.writeFile fl.out b with
  | some err => exact ⟨_, .writeFails hP hx hf ho hw⟩
  | none => exact ⟨_, .written hP hx hf ho hw⟩

/-- The run of `main` is one of the paths of `Runs`. -/
theorem main_runs (env : Env Any Tmpl) (fl : Flags) : Runs env fl (main env fl) := by
  obtain ⟨o, h⟩ := runs_total env fl
  rw [runs_sound h]
  exact h

/-! ## The log of a run -/

@[simp] theorem stage_checkFlags (ok : Bool) : (Event.checkFlags ok).stage = 0 := rfl
@[simp] theorem stage_unmarshal (s : GoString) (ok : Bool) : (Event.unmarshal s ok).stage = 1 := rfl
@[simp] theorem stage_readDataFile (p : GoString) (ok : Bool) :
    (Event.readDataFile p ok).stage = 1 := rfl
@[simp] theorem stage_parse (n : List GoString) (s : GoString) (ok : Bool) :
    (Event.parse n s ok).stage = 3 := rfl
@[simp] theorem stage_execute (s : GoString) (ok : Bool) : (Event.execute s ok).stage = 4 := rfl
@[simp] theorem stage_attachHeader : Event.attachHeader.stage = 5 := rfl
@[simp] theorem stage_gofmt (s : GoString) (ok : Bool) : (Event.gofmt s ok).stage = 6 := rfl
@[simp] theorem stage_printSrc (s : GoString) : (Event.printSrc s).stage = 7 := rfl
@[simp] theorem stage_writeFile (p s : GoString) (ok : Bool) :
    (Event.writeFile p s ok).stage = 7 := rfl
@[simp] theorem ok_checkFlags (ok : Bool) : (Event.checkFlags ok).ok = ok := rfl
@[simp] theorem ok_unmarshal (s : GoString) (ok : Bool) : (Event.unmarshal s ok).ok = ok := rfl
@[simp] theorem ok_readDataFile (p : GoString) (ok : Bool) :
    (Event.readDataFile p ok).ok = ok := rfl
@[simp] theorem ok_parse (n : List GoString) (s : GoString) (ok : Bool) :
    (Event.parse n s ok).ok = ok := rfl
@[simp] theorem ok_execute (s : GoString) (ok : Bool) : (Event.execute s ok).ok = ok := rfl
@[simp] theorem ok_attachHeader : Event.attachHeader.ok = true := rfl
@[simp] theorem ok_gofmt (s : GoString) (ok : Bool) : (Event.gofmt s ok).ok = ok := rfl
@[simp] theorem ok_printSrc (s : GoString) : (Event.printSrc s).ok = true := rfl
@[simp] theorem ok_writeFile (p s : GoString) (ok : Bool) : (Event.writeFile p s ok).ok = ok := rfl

theorem eq_readEvent (fl : Flags) (ok : Bool) (e : Event) :
    e = readEvent fl ok ↔
      (fl.inp = [] ∧ e = .readStdin ok) ∨ (fl.inp ≠ [] ∧ e = .readInput fl.inp ok) := by
  unfold readEvent
  split <;> simp [*]

@[simp] theorem readEvent_stage (fl : Flags) (ok : Bool) : (readEvent fl ok).stage = 2 := by
  unfold readEvent
  split <;> rfl

@[simp] theorem readEvent_ok (fl : Flags) (ok : Bool) : (readEvent fl ok).ok = ok := by
  unfold readEvent
  split <;> rfl

theorem mem_headerEvents (fl : Flags) (e : Event) :
    e ∈ headerEvents fl ↔ fl.nh = false ∧ e = .attachHeader := by
  unfold headerEvents
  cases fl.nh <;> simp

theorem mem_gofmtEvents (fl : Flags) (s : GoString) (e : Event) :
    e ∈ gofmtEvents fl s ↔ fl.nf = false ∧ e = .gofmt s true := by
  unfold gofmtEvents
  cases fl.nf <;> simp

/-- The operations of a successful data load belong to stage 1 and succeeded. -/
theorem dataLoad_events {env : Env Any Tmpl} {fl : Flags} {d : Any} {evs : List Event}
    (h : DataLoad env fl d evs) :
    (∀ e ∈ evs, e.stage = 1 ∧ e.ok = true) ∧ evs.Pairwise (fun a b => a.stage ≤ b.stage) := by
  cases h <;> simp [Event.stage, Event.ok]

/-- The log of a parsed run: the flag check, the data load, the source read and
the parse, all successful. -/
theorem parsed_events {env : Env Any Tmpl} {fl : Flags} {d : Any} {t : Tmpl} {evs : List Event}
    (h : Parsed env fl d t evs) :
    ∃ devs input, (∀ e ∈ devs, e.stage = 1 ∧ e.ok = true) ∧
      devs.Pairwise (fun a b => a.stage ≤ b.stage) ∧
      evs = .checkFlags true :: devs ++ [readEvent fl true, .parse (funcNames Any) input true] := by
  obtain ⟨hd, _, _⟩ := h
  exact ⟨_, _, (dataLoad_events hd).1, (dataLoad_events hd).2, rfl⟩

/-- The log of every run: operations that succeeded, then one last operation,
which failed exactly when the exit code is 2; the stages never decrease along
the log, and a failed run writes no file. -/
theorem trace_shape {env : Env Any Tmpl} {fl : Flags} {o : Outcome} (h : Runs env fl o) :
    ∃ oks last, o.world.trace = oks ++ [last] ∧ (∀ e ∈ oks, e.ok = true) ∧
      (oks ++ [last]).Pairwise (fun a b => a.stage ≤ b.stage) ∧
      (o.code = 0 ∧ last.ok = true ∧ last.stage = 7 ∨
        o.code = 2 ∧ last.ok = false ∧ o.world.files = []) := by
  cases h with
  | conflict => exact ⟨[], _, rfl, by simp, by simp, .inr ⟨rfl, rfl, rfl⟩⟩
  | badInline => exact ⟨[_], _, rfl, by simp, by simp, .inr ⟨rfl, rfl, rfl⟩⟩
  | noDataFile => exact ⟨[_], _, rfl, by simp, by simp, .inr ⟨rfl, rfl, rfl⟩⟩
  | badDataFile => exact ⟨[_, _], _, rfl, by simp, by simp, .inr ⟨rfl, rfl, rfl⟩⟩
  | noInput hd hr =>
    obtain ⟨h1, h2⟩ := dataLoad_events hd
    refine ⟨_, _, rfl, ?_, ?_, .inr ⟨rfl, by simp, rfl⟩⟩
    · simp +contextual [h1]
    · simp +contextual [List.pairwise_append, h1, h2]
  | @badTemplate d evs input err hd hr hp =>
    obtain ⟨h1, h2⟩ := dataLoad_events hd
    refine ⟨.checkFlags true :: evs ++ [readEvent fl true], .parse (funcNames Any) input false,
      by simp, ?_, ?_, .inr ⟨rfl, by simp, rfl⟩⟩
    · simp +contextual [h1, or_imp, forall_and]
    · simp +contextual [List.pairwise_append, h1, h2, or_imp, forall_and]
  | execFails hp hx =>
    obtain ⟨devs, input, h1, h2, rfl⟩ := parsed_events hp
    refine ⟨_, _, rfl, ?_, ?_, .inr ⟨rfl, by simp, rfl⟩⟩
    · simp +contextual [h1, or_imp, forall_and]
    · simp +contextual [List.pairwise_append, h1, h2, or_imp, forall_and]
  | gofmtFails hp hx =>
    obtain ⟨devs, input, h1, h2, rfl⟩ := parsed_events hp
    refine ⟨_, _, rfl, ?_, ?_, .inr ⟨rfl, by simp, rfl⟩⟩
    · simp +contextual [h1, or_imp, forall_and, mem_headerEvents]
    · simp +contextual [List.pairwise_append, h1, h2, or_imp, forall_and, mem_headerEvents]
      simp [headerEvents]; split <;> simp
  | writeFails hp hx =>
    obtain ⟨devs, input, h1, h2, rfl⟩ := parsed_events hp
    refine ⟨_, _, rfl, ?_, ?_, .inr ⟨rfl, by simp, rfl⟩⟩
    · simp +contextual [h1, or_imp, forall_and, mem_headerEvents, mem_gofmtEvents]
    · simp +contextual [List.pairwise_append, h1, h2, or_imp, forall_and, mem_headerEvents,
        mem_gofmtEvents]
      simp [headerEvents, gofmtEvents]; split <;> split <;> simp
  | printed hp hx =>
    obtain ⟨devs, input, h1, h2, rfl⟩ := parsed_events hp
    refine ⟨_, _, rfl, ?_, ?_, .inl ⟨rfl, by simp, by simp⟩⟩
    · simp +contextual [h1, or_imp, forall_and, mem_headerEvents, mem_gofmtEvents]
    · simp +contextual [List.pairwise_append, h1, h2, or_imp, forall_and, mem_headerEvents,
        mem_gofmtEvents]
      simp [headerEvents, gofmtEvents]; split <;> split <;> simp
  | written hp hx =>
    obtain ⟨devs, input, h1, h2, rfl⟩ := parsed_events hp
    refine ⟨_, _, rfl, ?_, ?_, .inl ⟨rfl, by simp, by simp⟩⟩
    · simp +contextual [h1, or_imp, forall_and, mem_headerEvents, mem_gofmtEvents]
    · simp +contextual [List.pairwise_append, h1, h2, or_imp, forall_and, mem_headerEvents,
        mem_gofmtEvents]
      simp [headerEvents, gofmtEvents]; split <;> split <;> simp

/-! ## Successful runs -/

/-- A run that exits with code 0 loaded its data, read, parsed and rendered the
template, formatted the result, and delivered it. -/
theorem success_inv {env : Env Any Tmpl} {fl : Flags} {o : Outcome} (h : Runs env fl o)
    (h0 : o.code = 0) :
    ∃ d t evs r b, Parsed env fl d t evs ∧ env.execute t d = (r, none) ∧
      formatted env fl (withHeader fl r) = .ok b ∧
      o.world.trace = evs ++ [.execute r true] ++ headerEvents fl ++
        gofmtEvents fl (withHeader fl r) ++
        [if fl.out = [] then .printSrc b else .writeFile fl.out b true] ∧
      o.world.stdout = (if fl.out = [] then b else []) ∧
      o.world.files = (if fl.out = [] then [] else [(fl.out, b)]) ∧
      o.world.stderr =
        readNote fl ++ (if fl.out = [] then [] else Sprintln ["Wrote to:".toList, fl.out]) := by
  cases h with
  | printed hp hx hf ho => exact ⟨_, _, _, _, _, hp, hx, hf, by simp [ho]⟩
  | written hp hx hf ho hw => exact ⟨_, _, _, _, _, hp, hx, hf, by simp [ho]⟩
  | _ => cases h0

/-- An operation that failed, in a log whose operations but the last succeeded,
is the last one. -/
theorem last_unique {oks pre post : List Event} {last e : Event}
    (hoks : ∀ x ∈ oks, x.ok = true) (hf : e.ok = false) (h : pre ++ e :: post = oks ++ [last]) :
    post = [] := by
  rcases List.append_eq_append_iff.1 h with ⟨a, h1, h2⟩ | ⟨c, h1, h2⟩
  · cases a with
    | nil => simp at h2; exact h2.2
    | cons x a =>
      simp at h2
      have := hoks e (by rw [h1, h2.1]; simp)
      rw [this] at hf; cases hf
  · cases c with
    | nil => simp at h2; exact h2.2
    | cons x c =>
      have := congrArg List.length h2
      simp at this

/-- The header with its operand in place: `fmt.Sprintf(header, from)` is the
header text with `from` where the verb `%v` stood. -/
theorem sprintf_header (frm : GoString) :
    Sprintf header [frm] =
      "// ***** DO NOT EDIT THIS FILE MANUALLY. *****\n//\n// This file was auto-generated ".toList ++
        frm ++ "using goat.\n//\n// goat: https://www.github.com/fluhus/goat\n\n".toList :=
  rfl

/-- A successful run with the header enabled hands the rendered bytes, with
the header attached, to the formatting stage, and delivers the result. -/
theorem header_delivered {env : Env Any Tmpl} {fl : Flags} (h0 : (main env fl).code = 0)
    (hnh : fl.nh = false) :
    ∃ r b, Event.execute r true ∈ (main env fl).world.trace ∧
      Event.attachHeader ∈ (main env fl).world.trace ∧
      formatted env fl (attachHeader fl.inp r) = .ok b ∧
      (fl.out = [] → (main env fl).world.stdout = b) ∧
      (fl.out ≠ [] → (main env fl).world.files = [(fl.out, b)]) := by
  obtain ⟨d, t, evs, r, b, -, -, hf, htr, hout, hfl, -⟩ := success_inv (main_runs env fl) h0
  refine ⟨r, b, ?_, ?_, ?_, ?_, ?_⟩
  · rw [htr]; simp
  · rw [htr]; simp [mem_headerEvents, hnh]
  · simpa [withHeader, hnh] using hf
  · intro ho; rw [hout, if_pos ho]
  · intro ho; rw [hfl, if_neg ho]

/-- The stages of a successful run, in order, each listed once. -/
theorem success_stages {env : Env Any Tmpl} {fl : Flags} (h0 : (main env fl).code = 0) :
    ((main env fl).world.trace.map Event.stage).dedup =
      [0] ++ (if fl.data = [] ∧ fl.dataFile = [] then [] else [1]) ++ [2, 3, 4] ++
        (if fl.nh then [] else [5]) ++ (if fl.nf then [] else [6]) ++ [7] := by
  obtain ⟨d, t, evs, r, b, hp, -, hf, htr, -⟩ := success_inv (main_runs env fl) h0
  obtain ⟨hd, -, -⟩ := hp
  rw [htr]
  cases hd with
  | absent h1 h2 =>
    cases hnh : fl.nh <;> cases hnf : fl.nf <;> by_cases ho : fl.out = [] <;>
    simp [h1, h2, hnh, hnf, ho, headerEvents, gofmtEvents]
  | inline h1 h2 =>
    cases hnh : fl.nh <;> cases hnf : fl.nf <;> by_cases ho : fl.out = [] <;>
    simp [h1, h2, hnh, hnf, ho, headerEvents, gofmtEvents]
  | file h1 h2 =>
    cases hnh : fl.nh <;> cases hnf : fl.nf <;> by_cases ho : fl.out = [] <;>
    simp [h1, h2, hnh, hnf, ho, headerEvents, gofmtEvents]

/-- The line printed for two operands. -/
theorem sprintln_two (a b : GoString) : Sprintln [a, b] = a ++ " ".toList ++ b ++ "\n".toList := by
  simp [Sprintln, List.intercalate]

/-! # Properties of the program -/

/-! ## C1: `-d` together with `-df` -/

/-- C1: when both the inline data (`-d`) and the data file path (`-df`) are
non-empty, whatever the environment and the other flags, the process exits with
code 2, standard output is empty, no file is written, the one line on standard
error is the conflict message, and the only operation performed is the failed
flag check: no data file or template source is read, nothing is decoded, parsed
or rendered. -/
theorem C1_conflict_exits_and_writes_nothing (env : Env Any Tmpl) (fl : Flags)
    (hd : fl.data ≠ []) (hdf : fl.dataFile ≠ []) :
    main env fl =
      { code := 2,
        world := { stdout := [],
                   stderr := "Only one of -d and -df can be used.\n".toList,
                   files := [],
                   trace := [Event.checkFlags false] } } := by
  rw [main_conflict hd hdf]
  rfl

/-- C1 at the sample environment, with `-d {bad} -df data.json -o o.go`. -/
theorem C1_conflict_witness :
    main sampleEnv { data := "{bad}".toList, dataFile := "data.json".toList, out := "o.go".toList } =
      { code := 2,
        world := { stdout := [],
                   stderr := "Only one of -d and -df can be used.\n".toList,
                   files := [],
                   trace := [Event.checkFlags false] } } :=
  C1_conflict_exits_and_writes_nothing sampleEnv
    { data := "{bad}".toList, dataFile := "data.json".toList, out := "o.go".toList }
    (by decide) (by decide)

/-! ## C2: no header, no formatting -/

/-- C2: when the data is loaded, the template source is read and parsed, and the
execution of the template succeeds with the bytes `r`, and both `-nh` and `-nf`
are set, then the bytes delivered are exactly `r`: with no output path the run
succeeds and standard output holds `r` and nothing else; with an output path
the only write attempted is of `r` to that path, and when it succeeds the file
holds exactly `r` and standard output is empty. -/
theorem C2_raw_output (env : Env Any Tmpl) (fl : Flags) (d : Any) (t : Tmpl)
    (evs : List Event) (r : GoString) (hp : Parsed env fl d t evs)
    (hx : env.execute t d = (r, none)) (hnh : fl.nh = true) (hnf : fl.nf = true) :
    (fl.out = [] → (main env fl).code = 0 ∧ (main env fl).world.stdout = r ∧
      (main env fl).world.files = []) ∧
    (fl.out ≠ [] → env.writeFile fl.out r = none →
      (main env fl).code = 0 ∧ (main env fl).world.files = [(fl.out, r)] ∧
      (main env fl).world.stdout = []) ∧
    (∀ p b ok, Event.writeFile p b ok ∈ (main env fl).world.trace → p = fl.out ∧ b = r) ∧
    (∀ b, Event.printSrc b ∈ (main env fl).world.trace → b = r) := by
  have hf : formatted env fl (withHeader fl r) = .ok r := by simp [formatted, withHeader, hnh, hnf]
  obtain ⟨devs, input, h1, h2, hevs⟩ := parsed_events hp
  have hne : ∀ e ∈ evs ++ [Event.execute r true] ++ headerEvents fl ++
      gofmtEvents fl (withHeader fl r), e.stage ≠ 7 := by
    subst hevs
    intro e he
    simp [mem_headerEvents, mem_gofmtEvents, hnh, hnf] at he
    rcases he with rfl | he | rfl | rfl | rfl
    · simp
    · simp [(h1 e he).1]
    · simp
    · simp
    · simp
  by_cases ho : fl.out = []
  · rw [main_printed hp hx hf ho]
    refine ⟨fun _ => ⟨rfl, rfl, rfl⟩, fun h => absurd ho h, ?_, ?_⟩
    · intro p b ok h
      rcases List.mem_append.1 h with h | h
      · exact absurd rfl (hne _ h)
      · simp at h
    · intro b h
      rcases List.mem_append.1 h with h | h
      · exact absurd rfl (hne _ h)
      · simpa using h
  · cases hw : env.writeFile fl.out r with
    | none =>
      rw [main_written hp hx hf ho hw]
      refine ⟨fun h => absurd h ho, fun _ _ => ⟨rfl, rfl, rfl⟩, ?_, ?_⟩
      · intro p b ok h
        rcases List.mem_append.1 h with h | h
        · exact absurd rfl (hne _ h)
        · simp at h; exact ⟨h.1, h.2.1⟩
      · intro b h
        rcases List.mem_append.1 h with h | h
        · exact absurd rfl (hne _ h)
        · simp at h
    | some err =>
      rw [main_writeFails hp hx hf ho hw]
      refine ⟨fun h => absurd h ho, fun _ h => (by cases h), ?_, ?_⟩
      · intro p b ok h
        rcases List.mem_append.1 h with h | h
        · exact absurd rfl (hne _ h)
        · simp at h; exact ⟨h.1, h.2.1⟩
      · intro b h
        rcases List.mem_append.1 h with h | h
        · exact absurd rfl (hne _ h)
        · simp at h

/-- C2 at the sample environment: the template `Hello {{.}}` with the inline
data `"world"` and `-nh -nf` gives exactly `Hello world` on standard output. -/
theorem C2_raw_output_witness :
    (main sampleEnv { nh := true, nf := true, data := "\"world\"".toList }).code = 0 ∧
    (main sampleEnv { nh := true, nf := true, data := "\"world\"".toList }).world.stdout
      = "Hello world".toList ∧
    (main sampleEnv { nh := true, nf := true, data := "\"world\"".toList }).world.files = [] :=
  (C2_raw_output sampleEnv { nh := true, nf := true, data := "\"world\"".toList }
    (some "world".toList) "Hello \x7b\x7b.\x7d\x7d".toList _ "Hello world".toList
    (Parsed.mk (DataLoad.inline (by decide) rfl rfl) rfl rfl) rfl rfl rfl).1 rfl

/-! ## C3: the `from` clause of the header -/

set_option maxRecDepth 100000 in
/-- C3: for every non-empty input path `p`, whatever its characters, the bytes
the header attachment puts before the rendered content contain `from 'p' `, with
`p` verbatim, between `auto-generated ` and `using goat.`; for the empty input
path (standard input) they read `auto-generated using goat.` and contain no
`from` at all; and a successful run with the header enabled hands the rendered
bytes with these bytes in front to the formatting stage and delivers the result. -/
theorem C3_from_clause (env : Env Any Tmpl) (fl : Flags) (p src : GoString) :
    (p ≠ [] → attachHeader p src =
      "// ***** DO NOT EDIT THIS FILE MANUALLY. *****\n//\n// This file was ".toList ++
        ("auto-generated ".toList ++ ("from '".toList ++ p ++ "' ".toList) ++ "using goat.".toList) ++
        "\n//\n// goat: https://www.github.com/fluhus/goat\n\n".toList ++ src) ∧
    attachHeader [] src =
      "// ***** DO NOT EDIT THIS FILE MANUALLY. *****\n//\n// This file was ".toList ++
        "auto-generated using goat.".toList ++
        "\n//\n// goat: https://www.github.com/fluhus/goat\n\n".toList ++ src ∧
    ¬ ("from".toList <:+:
      "// ***** DO NOT EDIT THIS FILE MANUALLY. *****\n//\n// This file was ".toList ++
        "auto-generated using goat.".toList ++
        "\n//\n// goat: https://www.github.com/fluhus/goat\n\n".toList) ∧
    ((main env fl).code = 0 → fl.nh = false →
      ∃ r b, Event.execute r true ∈ (main env fl).world.trace ∧
        formatted env fl (attachHeader fl.inp r) = .ok b ∧
        (fl.out = [] → (main env fl).world.stdout = b) ∧
        (fl.out ≠ [] → (main env fl).world.files = [(fl.out, b)])) := by
  refine ⟨?_, ?_, ?_, ?_⟩
  · intro hp
    simp only [attachHeader, hp, ne_eq, not_false_eq_true, if_true, sprintf_header]
    simp
  · simp only [attachHeader, ne_eq, not_true_eq_false, if_false, sprintf_header]
    simp
  · decide
  · intro h0 hnh
    obtain ⟨r, b, h1, -, h2, h3, h4⟩ := header_delivered h0 hnh
    exact ⟨r, b, h1, h2, h3, h4⟩

/-- C3 at the path `a%vb'"c.tmpl`, which holds a verb and both quote characters. -/
theorem C3_from_clause_witness :
    attachHeader "a%vb'\"c.tmpl".toList "package x\n".toList =
      "// ***** DO NOT EDIT THIS FILE MANUALLY. *****\n//\n// This file was ".toList ++
        ("auto-generated ".toList ++ ("from '".toList ++ "a%vb'\"c.tmpl".toList ++ "' ".toList) ++
          "using goat.".toList) ++
        "\n//\n// goat: https://www.github.com/fluhus/goat\n\n".toList ++ "package x\n".toList :=
  (C3_from_clause sampleEnv {} "a%vb'\"c.tmpl".toList "package x\n".toList).1 (by decide)

/-! ## C4: the header block -/

set_option maxRecDepth 100000 in
/-- C4, as the claim states it, fails: on the template `foo.tmpl` with
formatting suppressed, the output is not the six comment lines ending in `//`
followed by the rendered text; the header ends with an empty line instead. -/
theorem C4_counterexample :
    (main sampleEnv { inp := "foo.tmpl".toList, nf := true }).world.stdout ≠
      ("// ***** DO NOT EDIT THIS FILE MANUALLY. *****\n" ++
       "//\n" ++
       "// This file was auto-generated from 'foo.tmpl' using goat.\n" ++
       "//\n" ++
       "// goat: https://www.github.com/fluhus/goat\n" ++
       "//\n" ++
       "package x\n").toList ∧
    (main sampleEnv { inp := "foo.tmpl".toList, nf := true }).world.stdout =
      ("// ***** DO NOT EDIT THIS FILE MANUALLY. *****\n" ++
       "//\n" ++
       "// This file was auto-generated from 'foo.tmpl' using goat.\n" ++
       "//\n" ++
       "// goat: https://www.github.com/fluhus/goat\n" ++
       "\n" ++
       "package x\n").toList := by
  decide

/-- C4, amended: the bytes prepended by the header attachment are exactly five
newline-terminated comment lines followed by one empty line, and the rendered
content starts right after that empty line; with the header enabled and
formatting suppressed a successful run delivers these bytes followed by the
rendered bytes. -/
theorem C4_header_block (env : Env Any Tmpl) (fl : Flags) :
    (∀ src, attachHeader fl.inp src =
        "// ***** DO NOT EDIT THIS FILE MANUALLY. *****\n".toList ++
        "//\n".toList ++
        ("// This file was auto-generated ".toList ++
          (if fl.inp = [] then [] else "from '".toList ++ fl.inp ++ "' ".toList) ++
          "using goat.\n".toList) ++
        "//\n".toList ++
        "// goat: https://www.github.com/fluhus/goat\n".toList ++
        "\n".toList ++
        src) ∧
    ((main env fl).code = 0 → fl.nh = false → fl.nf = true →
      ∃ r, Event.execute r true ∈ (main env fl).world.trace ∧
        (fl.out = [] → (main env fl).world.stdout = attachHeader fl.inp r) ∧
        (fl.out ≠ [] → (main env fl).world.files = [(fl.out, attachHeader fl.inp r)])) := by
  refine ⟨?_, ?_⟩
  · intro src
    by_cases hi : fl.inp = []
    · simp only [attachHeader, hi, ne_eq, not_true_eq_false, if_false, if_true, sprintf_header]
      simp
    · simp only [attachHeader, hi, ne_eq, not_false_eq_true, if_false, if_true, sprintf_header]
      simp
  · intro h0 hnh hnf
    obtain ⟨r, b, h1, -, h2, h3, h4⟩ := header_delivered h0 hnh
    simp only [formatted, hnf, if_true, Except.ok.injEq] at h2
    subst h2
    exact ⟨r, h1, h3, h4⟩

/-- C4, amended, at the sample environment with `-i foo.tmpl -nf`. -/
theorem C4_header_block_witness :
    ∃ r, Event.execute r true ∈
        (main sampleEnv { inp := "foo.tmpl".toList, nf := true }).world.trace ∧
      (([] : GoString) = [] →
        (main sampleEnv { inp := "foo.tmpl".toList, nf := true }).world.stdout =
          attachHeader "foo.tmpl".toList r) ∧
      (([] : GoString) ≠ [] →
        (main sampleEnv { inp := "foo.tmpl".toList, nf := true }).world.files =
          [([], attachHeader "foo.tmpl".toList r)]) :=
  (C4_header_block sampleEnv { inp := "foo.tmpl".toList, nf := true }).2 (by decide) rfl rfl

/-! ## C5: where the error messages go -/

set_option maxRecDepth 100000 in
/-- C5: the failures of the last three stages print their message with
`fmt.Println`, on standard output, not on standard error.  In the sample
environment: the template of `field.tmpl` fails to execute, the rendered text
`Hello <no value>` is rejected by gofmt, and the output path `/proc/x.go` cannot
be written; each run exits with code 2 with its error message on standard output
and none on standard error. -/
theorem C5_late_failures_print_to_stdout :
    main sampleEnv { inp := "field.tmpl".toList, nh := true, nf := true } =
      { code := 2,
        world :=
          { stdout := ("Failed to execute template: template: :1:2: executing \"\" at <.x>: " ++
              "nil data; no entry for key \"x\"\n").toList,
            stderr := [],
            files := [],
            trace := [.checkFlags true, .readInput "field.tmpl".toList true,
              .parse ["slice".toList] "\x7b\x7b.x\x7d\x7d".toList true, .execute [] false] } } ∧
    main sampleEnv { nh := true } =
      { code := 2,
        world :=
          { stdout :=
              "Failed to gofmt the resulting source: 1:1: expected 'package', found Hello\n".toList,
            stderr := "Reading from stdin...\n".toList,
            files := [],
            trace := [.checkFlags true, .readStdin true,
              .parse ["slice".toList] "Hello \x7b\x7b.\x7d\x7d".toList true,
              .execute "Hello <no value>".toList true,
              .gofmt "Hello <no value>".toList false] } } ∧
    main sampleEnv { inp := "foo.tmpl".toList, out := "/proc/x.go".toList, nh := true } =
      { code := 2,
        world :=
          { stdout := "Failed to write output: open /proc/x.go: permission denied\n".toList,
            stderr := [],
            files := [],
            trace := [.checkFlags true, .readInput "foo.tmpl".toList true,
              .parse ["slice".toList] "package x\n".toList true,
              .execute "package x\n".toList true,
              .gofmt "package x\n".toList true,
              .writeFile "/proc/x.go".toList "package x\n".toList false] } } := by
  decide

/-! ## C6: the stages in order -/

/-- C6: along the log of every run the stages never decrease (configuration
check 0, data load 1, source read 2, parse 3, render 4, header 5, formatting 6,
output write 7), and a successful run goes through all of them, the data load
only when data is given, the header and the formatting unless suppressed.  The
exit code is 2 exactly when some operation failed and 0 exactly when all
succeeded.  A failed operation is the last one of the log, and no operation of a
later stage is in the log.  In particular, when the text of `-d` or the content
of the `-df` file does not decode, the run exits with 2 and no template source is
read and no template is parsed.  A file is written only in a
run that exits with 0, in which every operation succeeded, and with formatting
enabled the file holds the result of gofmt; when gofmt fails nothing is printed
or written in its place. -/
theorem C6_linear_stages (env : Env Any Tmpl) (fl : Flags) :
    (main env fl).world.trace.Pairwise (fun a b => a.stage ≤ b.stage) ∧
    ((main env fl).code = 0 →
      ((main env fl).world.trace.map Event.stage).dedup =
        [0] ++ (if fl.data = [] ∧ fl.dataFile = [] then [] else [1]) ++ [2, 3, 4] ++
          (if fl.nh then [] else [5]) ++ (if fl.nf then [] else [6]) ++ [7]) ∧
    ((main env fl).code = 2 ↔ ∃ e ∈ (main env fl).world.trace, e.ok = false) ∧
    ((main env fl).code = 0 ↔ ∀ e ∈ (main env fl).world.trace, e.ok = true) ∧
    (∀ pre e post, (main env fl).world.trace = pre ++ e :: post → e.ok = false → post = []) ∧
    (∀ e ∈ (main env fl).world.trace, e.ok = false →
      ∀ e' ∈ (main env fl).world.trace, e'.stage ≤ e.stage) ∧
    (∀ src, Event.unmarshal src false ∈ (main env fl).world.trace →
      ∀ e ∈ (main env fl).world.trace,
        e ≠ .readStdin true ∧ e ≠ .readStdin false ∧
        (∀ p ok, e ≠ .readInput p ok) ∧ (∀ n s ok, e ≠ .parse n s ok)) ∧
    ((main env fl).world.files ≠ [] →
      (main env fl).code = 0 ∧ (∀ e ∈ (main env fl).world.trace, e.ok = true) ∧
      (fl.nf = false → ∃ s b, Event.gofmt s true ∈ (main env fl).world.trace ∧
        env.formatSource s = .ok b ∧ (main env fl).world.files = [(fl.out, b)])) ∧
    (∀ s, Event.gofmt s false ∈ (main env fl).world.trace →
      (main env fl).code = 2 ∧ (main env fl).world.files = [] ∧
      (∀ b, Event.printSrc b ∉ (main env fl).world.trace) ∧
      (∀ q b ok, Event.writeFile q b ok ∉ (main env fl).world.trace)) ∧
    (∀ err, fl.data ≠ [] → env.unmarshal fl.data = .error err →
      (main env fl).code = 2 ∧ ∀ e ∈ (main env fl).world.trace, e.stage ≤ 1) ∧
    (∀ bytes err, fl.dataFile ≠ [] → env.readFile fl.dataFile = .ok bytes →
      env.unmarshal bytes = .error err →
      (main env fl).code = 2 ∧ ∀ e ∈ (main env fl).world.trace, e.stage ≤ 1) := by
  have hr := main_runs env fl
  obtain ⟨oks, last, htr, hoks, hpw, hlast⟩ := trace_shape hr
  have hlastmem : ∀ e ∈ (main env fl).world.trace, e.ok = false → e = last := by
    intro e he hf
    rw [htr] at he
    rcases List.mem_append.1 he with h | h
    · rw [hoks e h] at hf; cases hf
    · simpa using h
  have hstage : ∀ e ∈ (main env fl).world.trace, e.stage ≤ last.stage := by
    intro e he
    rw [htr] at he
    rw [List.pairwise_append] at hpw
    rcases List.mem_append.1 he with h | h
    · exact hpw.2.2 e h last (by simp)
    · simp at h; rw [h]
  refine ⟨htr ▸ hpw, success_stages, ?_, ?_, ?_, ?_, ?_, ?_, ?_, ?_, ?_⟩
  · constructor
    · intro h2
      rcases hlast with ⟨h0, -⟩ | ⟨-, hl, -⟩
      · rw [h0] at h2; cases h2
      · exact ⟨last, by rw [htr]; simp, hl⟩
    · rintro ⟨e, he, hf⟩
      rcases hlast with ⟨-, hl, -⟩ | ⟨h2, -, -⟩
      · rw [hlastmem e he hf, hl] at hf; cases hf
      · exact h2
  · constructor
    · intro h0 e he
      rcases hlast with ⟨-, hl, -⟩ | ⟨h2, -, -⟩
      · rw [htr] at he
        rcases List.mem_append.1 he with h | h
        · exact hoks e h
        · simp at h; rw [h, hl]
      · rw [h0] at h2; cases h2
    · intro hall
      rcases hlast with ⟨h0, -⟩ | ⟨-, hl, -⟩
      · exact h0
      · rw [hall last (by rw [htr]; simp)] at hl; cases hl
  · intro pre e post hsplit hf
    rw [htr] at hsplit
    exact last_unique hoks hf hsplit.symm
  · intro e he hf e' he'
    rw [hlastmem e he hf]
    exact hstage e' he'
  · intro src hsrc e he
    have h1 := hlastmem _ hsrc rfl
    have h2 := hstage e he
    rw [← h1] at h2
    simp at h2
    refine ⟨?_, ?_, ?_, ?_⟩ <;> (try intros) <;> rintro rfl <;> simp [Event.stage] at h2
  · intro hfiles
    rcases hlast with ⟨h0, hl, -⟩ | ⟨-, -, hnil⟩
    swap
    · exact absurd hnil hfiles
    obtain ⟨d, t, evs, r, b, -, -, hf, htr', -, hfl, -⟩ := success_inv hr h0
    refine ⟨h0, ?_, ?_⟩
    · intro e he
      rw [htr] at he
      rcases List.mem_append.1 he with h | h
      · exact hoks e h
      · simp at h; rw [h, hl]
    · intro hnf
      have ho : fl.out ≠ [] := by
        intro ho
        rw [hfl, if_pos ho] at hfiles
        exact hfiles rfl
      refine ⟨withHeader fl r, b, ?_, ?_, ?_⟩
      · rw [htr']; simp [gofmtEvents, hnf]
      · simpa [formatted, hnf] using hf
      · rw [hfl, if_neg ho]
  · intro s hs
    have hl := hlastmem _ hs rfl
    have hbound : ∀ e ∈ (main env fl).world.trace, e.stage ≤ 6 := by
      intro e he
      have := hstage e he
      rw [← hl] at this
      simpa using this
    rcases hlast with ⟨-, hok, -⟩ | ⟨h2, -, hnil⟩
    · rw [← hl] at hok; cases hok
    · refine ⟨h2, hnil, ?_, ?_⟩
      · intro b hb
        have := hbound _ hb
        simp at this
      · intro q b ok hb
        have := hbound _ hb
        simp at this
  · intro err h1 h3
    by_cases h2 : fl.dataFile = []
    · rw [main_badInline h1 h2 h3]
      exact ⟨rfl, by simp⟩
    · rw [main_conflict h1 h2]
      exact ⟨rfl, by simp⟩
  · intro bytes err h2 h3 h4
    by_cases h1 : fl.data = []
    · rw [main_badDataFile h1 h2 h3 h4]
      exact ⟨rfl, by simp⟩
    · rw [main_conflict h1 h2]
      exact ⟨rfl, by simp⟩

/-- C6 at the sample environment with `-d {bad}`: the failed decoding is the
last operation, and no operation of a later stage is in the log. -/
theorem C6_linear_stages_witness :
    ∀ e ∈ (main sampleEnv { data := "{bad}".toList }).world.trace,
      e.stage ≤ (Event.unmarshal "{bad}".toList false).stage :=
  (C6_linear_stages sampleEnv { data := "{bad}".toList }).2.2.2.2.2.1
    (Event.unmarshal "{bad}".toList false) (by decide) rfl

/-! ## C7: where the result goes -/

/-- C7: in every run that exits with code 0, with `b` the final bytes (the result
of the formatting stage on the rendered bytes with the header): when the output
path is empty, standard output holds exactly `b`, no file is written, no write
is attempted, and standard error holds no confirmation line (only the note
`Reading from stdin...` when the template came from standard input); when the
output path is a non-empty `p`, the file `p` is written with exactly `b`,
standard output is empty, and standard error ends with the line `Wrote to: p`. -/
theorem C7_destination (env : Env Any Tmpl) (fl : Flags) (h0 : (main env fl).code = 0) :
    ∃ r b, Event.execute r true ∈ (main env fl).world.trace ∧
      formatted env fl (withHeader fl r) = .ok b ∧
      (fl.out = [] →
        (main env fl).world.stdout = b ∧
        (main env fl).world.files = [] ∧
        (∀ p s ok, Event.writeFile p s ok ∉ (main env fl).world.trace) ∧
        (main env fl).world.stderr =
          (if fl.inp = [] then "Reading from stdin...\n".toList else [])) ∧
      (fl.out ≠ [] →
        (main env fl).world.files = [(fl.out, b)] ∧
        (main env fl).world.stdout = [] ∧
        Event.writeFile fl.out b true ∈ (main env fl).world.trace ∧
        (main env fl).world.stderr =
          (if fl.inp = [] then "Reading from stdin...\n".toList else []) ++
            ("Wrote to: ".toList ++ fl.out ++ "\n".toList)) := by
  obtain ⟨d, t, evs, r, b, hp, -, hf, htr, hout, hfl, herr⟩ := success_inv (main_runs env fl) h0
  obtain ⟨devs, input, h1, -, rfl⟩ := parsed_events hp
  have hnote : readNote fl = (if fl.inp = [] then "Reading from stdin...\n".toList else []) := by
    unfold readNote
    split <;> rfl
  refine ⟨r, b, ?_, hf, ?_, ?_⟩
  · rw [htr]; simp
  · intro ho
    refine ⟨by rw [hout, if_pos ho], by rw [hfl, if_pos ho], ?_, ?_⟩
    · intro p s ok hmem
      rw [htr] at hmem
      simp [mem_headerEvents, mem_gofmtEvents, eq_readEvent, ho] at hmem
      have := (h1 _ hmem).1
      simp at this
    · rw [herr, if_pos ho, hnote]; simp
  · intro ho
    refine ⟨by rw [hfl, if_neg ho], by rw [hout, if_neg ho], ?_, ?_⟩
    · rw [htr]; simp [ho]
    · rw [herr, if_neg ho, hnote, sprintln_two]
      simp

/-- C7 at the sample environment with `-i foo.tmpl -o x.go`. -/
theorem C7_destination_witness :
    ∃ r b, Event.execute r true ∈
        (main sampleEnv { inp := "foo.tmpl".toList, out := "x.go".toList }).world.trace ∧
      formatted sampleEnv { inp := "foo.tmpl".toList, out := "x.go".toList }
        (withHeader { inp := "foo.tmpl".toList, out := "x.go".toList } r) = .ok b ∧
      ("x.go".toList = [] →
        (main sampleEnv { inp := "foo.tmpl".toList, out := "x.go".toList }).world.stdout = b ∧
        (main sampleEnv { inp := "foo.tmpl".toList, out := "x.go".toList }).world.files = [] ∧
        (∀ p s ok, Event.writeFile p s ok ∉
          (main sampleEnv { inp := "foo.tmpl".toList, out := "x.go".toList }).world.trace) ∧
        (main sampleEnv { inp := "foo.tmpl".toList, out := "x.go".toList }).world.stderr =
          (if "foo.tmpl".toList = [] then "Reading from stdin...\n".toList else [])) ∧
      ("x.go".toList ≠ [] →
        (main sampleEnv { inp := "foo.tmpl".toList, out := "x.go".toList }).world.files =
          [("x.go".toList, b)] ∧
        (main sampleEnv { inp := "foo.tmpl".toList, out := "x.go".toList }).world.stdout = [] ∧
        Event.writeFile "x.go".toList b true ∈
          (main sampleEnv { inp := "foo.tmpl".toList, out := "x.go".toList }).world.trace ∧
        (main sampleEnv { inp := "foo.tmpl".toList, out := "x.go".toList }).world.stderr =
          (if "foo.tmpl".toList = [] then "Reading from stdin...\n".toList else []) ++
            ("Wrote to: ".toList ++ "x.go".toList ++ "\n".toList)) :=
  C7_destination sampleEnv { inp := "foo.tmpl".toList, out := "x.go".toList } (by decide)

/-! ## C8: makeSlice -/

/-- C8: `makeSlice` returns its argument list: the same list, so the same
length and, at every position, the same element, for every list, the empty one
included; and every helper registered in `funcs` does so. -/
theorem C8_makeSlice_returns_arguments (a : List Any) :
    makeSlice a = a ∧ (makeSlice a).length = a.length ∧
      (∀ i : Nat, (makeSlice a)[i]? = a[i]?) ∧ makeSlice ([] : List Any) = [] ∧
      ∀ name f, (name, f) ∈ funcs Any → f a = a := by
  refine ⟨rfl, rfl, fun _ => rfl, rfl, ?_⟩
  intro name f h
  simp only [funcs, List.mem_singleton, Prod.mk.injEq] at h
  rw [h.2]
  rfl

/-- C8 at the call `slice 1 2 3`: the helper registered as `slice` yields
`[1, 2, 3]`. -/
theorem C8_makeSlice_witness : makeSlice [1, 2, 3] = [1, 2, 3] :=
  (C8_makeSlice_returns_arguments [1, 2, 3]).2.2.2.2 "slice".toList makeSlice
    (List.mem_singleton.2 rfl)

/-! ## C9: the helper registry -/

/-- C9, as the claim states it, fails: the names of the registry are not the
single name `collect`, and `collect` is not among them. -/
theorem C9_counterexample :
    ¬ (funcNames Nat = ["collect".toList]) ∧ "collect".toList ∉ funcNames Nat := by
  decide

/-- C9, amended: the registry `funcs` has exactly one entry, registered under
the name `slice` and bound to `makeSlice`, and every call of the template parser
made by `main` is handed exactly that one name. -/
theorem C9_registry_is_slice (env : Env Any Tmpl) (fl : Flags) :
    (funcs Any).length = 1 ∧ funcNames Any = ["slice".toList] ∧
      funcs Any = [("slice".toList, makeSlice)] ∧
      ∀ names text ok, Event.parse names text ok ∈ (main env fl).world.trace →
        names = ["slice".toList] := by
  refine ⟨rfl, rfl, rfl, ?_⟩
  intro names text ok h
  have hr := main_runs env fl
  generalize main env fl = o at h hr
  cases hr with
  | conflict | badInline | noDataFile | badDataFile => simp at h
  | noInput hd hr =>
    have := (dataLoad_events hd).1
    simp [eq_readEvent] at h
    have := (this _ h).1
    simp [Event.stage] at this
  | badTemplate hd hr hp =>
    have := (dataLoad_events hd).1
    simp [eq_readEvent] at h
    rcases h with h | h
    · have := (this _ h).1
      simp [Event.stage] at this
    · rw [h.1]; rfl
  | execFails hp hx | gofmtFails hp hx | writeFails hp hx | printed hp hx | written hp hx =>
    obtain ⟨devs, input, hdev, -, rfl⟩ := parsed_events hp
    simp [eq_readEvent, mem_headerEvents, mem_gofmtEvents] at h
    rcases h with h | h
    · have := (hdev _ h).1
      simp [Event.stage] at this
    · rw [h.1]; rfl

/-- C9, amended, at the sample environment reading standard input. -/
theorem C9_registry_witness :
    Event.parse ["slice".toList] "Hello \x7b\x7b.\x7d\x7d".toList true ∈
        (main sampleEnv {}).world.trace ∧
      ["slice".toList] = ["slice".toList] :=
  ⟨by decide,
    (C9_registry_is_slice sampleEnv {}).2.2.2 ["slice".toList]
      "Hello \x7b\x7b.\x7d\x7d".toList true (by decide)⟩

/-! ## C10: the header is attached before formatting -/

/-- C10: in every run that exits with code 0 there are rendered bytes `r` and
final bytes `b` with `b = F (H r)`: `H` (`withHeader`) puts the header before `r`
unless `-nh` is set, and `F` (`formatted`) is gofmt unless `-nf` is set.  The
final bytes are what standard output or the output file receives.  With
formatting enabled gofmt is called once, on `H r`, so with both enabled on the
header followed by the rendered text; with formatting suppressed `b` is `H r`
and `r` is a suffix of it. -/
theorem C10_header_before_format (env : Env Any Tmpl) (fl : Flags)
    (h0 : (main env fl).code = 0) :
    ∃ r b, Event.execute r true ∈ (main env fl).world.trace ∧
      formatted env fl (withHeader fl r) = .ok b ∧
      (fl.out = [] → (main env fl).world.stdout = b) ∧
      (fl.out ≠ [] → (main env fl).world.files = [(fl.out, b)]) ∧
      (fl.nh = true → withHeader fl r = r) ∧
      (fl.nh = false → withHeader fl r =
        Sprintf header [if fl.inp ≠ [] then "from '".toList ++ fl.inp ++ "' ".toList else []] ++ r) ∧
      (fl.nf = true → b = withHeader fl r ∧ r <:+ b) ∧
      (fl.nf = false → env.formatSource (withHeader fl r) = .ok b ∧
        Event.gofmt (withHeader fl r) true ∈ (main env fl).world.trace ∧
        ∀ s ok, Event.gofmt s ok ∈ (main env fl).world.trace → s = withHeader fl r) := by
  obtain ⟨d, t, evs, r, b, hp, -, hf, htr, hout, hfl, -⟩ := success_inv (main_runs env fl) h0
  obtain ⟨devs, input, h1, -, rfl⟩ := parsed_events hp
  refine ⟨r, b, ?_, hf, ?_, ?_, ?_, ?_, ?_, ?_⟩
  · rw [htr]; simp
  · intro ho; rw [hout, if_pos ho]
  · intro ho; rw [hfl, if_neg ho]
  · intro hnh; simp [withHeader, hnh]
  · intro hnh; simp [withHeader, hnh, attachHeader]
  · intro hnf
    have hb : b = withHeader fl r := by simpa [formatted, hnf] using hf.symm
    refine ⟨hb, ?_⟩
    rw [hb]
    unfold withHeader attachHeader
    split
    · exact List.suffix_refl _
    · exact List.suffix_append _ _
  · intro hnf
    refine ⟨by simpa [formatted, hnf] using hf, ?_, ?_⟩
    · rw [htr]; simp [mem_gofmtEvents, hnf]
    · intro s ok hmem
      rw [htr] at hmem
      simp [mem_headerEvents, mem_gofmtEvents, eq_readEvent] at hmem
      rcases hmem with hmem | hmem | hmem
      · have := (h1 _ hmem).1
        simp at this
      · exact hmem.2.1
      · split at hmem <;> simp at hmem

/-- C10 at the sample environment with `-i foo.tmpl`, header and formatting
enabled. -/
theorem C10_header_before_format_witness :
    ∃ r b, Event.execute r true ∈ (main sampleEnv { inp := "foo.tmpl".toList }).world.trace ∧
      formatted sampleEnv { inp := "foo.tmpl".toList }
        (withHeader { inp := "foo.tmpl".toList } r) = .ok b ∧
      (([] : GoString) = [] → (main sampleEnv { inp := "foo.tmpl".toList }).world.stdout = b) ∧
      (([] : GoString) ≠ [] →
        (main sampleEnv { inp := "foo.tmpl".toList }).world.files = [([], b)]) ∧
      (false = true → withHeader { inp := "foo.tmpl".toList } r = r) ∧
      (false = false → withHeader { inp := "foo.tmpl".toList } r =
        Sprintf header [if "foo.tmpl".toList ≠ [] then
          "from '".toList ++ "foo.tmpl".toList ++ "' ".toList else []] ++ r) ∧
      (false = true → b = withHeader { inp := "foo.tmpl".toList } r ∧ r <:+ b) ∧
      (false = false →
        sampleEnv.formatSource (withHeader { inp := "foo.tmpl".toList } r) = .ok b ∧
        Event.gofmt (withHeader { inp := "foo.tmpl".toList } r) true ∈
          (main sampleEnv { inp := "foo.tmpl".toList }).world.trace ∧
        ∀ s ok, Event.gofmt s ok ∈ (main sampleEnv { inp := "foo.tmpl".toList }).world.trace →
          s = withHeader { inp := "foo.tmpl".toList } r) :=
  C10_header_before_format sampleEnv { inp := "foo.tmpl".toList } (by decide)

end Goat
